import Mathlib

/-!
Verification of the CSS selector builder in `src/06-objects-tasks.js`
(repository kornienko199004/core-js-101), together with a model of the
structured-text encode/decode collaborator used by `getJSON`/`fromJSON`.

The builder state `MySuperBaseElementSelector` mirrors the JS object:
`arr` is the fragment-text array, `order` the array of recorded ranks,
and the three `has…` flags model the singleton flags (JS `undefined`
is modelled as `false`).  Each append method returns the error raised
(if any) together with the state of the object at the moment the call
returns or throws — in JS a throw leaves the partially mutated object
behind, and the model keeps that state.
-/

/-- Join of a list of strings with the empty separator (the JS array join used by the builder). -/
def joinAll : List String → String
  | [] => ""
  | x :: xs => x ++ joinAll xs

/-- The two error kinds thrown by the builder (`new Error(...)` with the
duplicate-singleton message resp. the ordering message). -/
inductive SelectorError where
  | duplicateFragment
  | outOfOrder
deriving Repr, DecidableEq

/-- State of a `MySuperBaseElementSelector` instance. -/
structure MySuperBaseElementSelector where
  arr : List String
  order : List Nat
  hasElement : Bool
  hasId : Bool
  hasPseudoElement : Bool
deriving Repr, DecidableEq

/-- Fresh instance of `MySuperBaseElementSelector`: empty `arr`, empty `order`, flags unset. -/
def newSelector : MySuperBaseElementSelector :=
  { arr := [], order := [], hasElement := false, hasId := false,
    hasPseudoElement := false }

namespace MySuperBaseElementSelector

/-- JS `checkOrder(number)` throws iff `this.order.slice(-1) && this.order.slice(-1) > number`
is truthy.  `slice(-1)` is `[]` (truthy, coercing to `0`) on an empty array and
`[last]` (coercing to `last`) otherwise, so the condition is `(last or 0) > number`.
Returns `true` when the JS code throws. -/
def checkOrder (s : MySuperBaseElementSelector) (number : Nat) : Bool :=
  decide (s.order.getLastD 0 > number)

/-- JS `stringify()`: the join of the fragment array with the empty separator. -/
def stringify (s : MySuperBaseElementSelector) : String :=
  joinAll s.arr

/-- JS `element(value)`: duplicate check, set flag, push the value text, check order, push rank 1. -/
def element (s : MySuperBaseElementSelector) (value : String) :
    Option SelectorError × MySuperBaseElementSelector :=
  if s.hasElement then (some .duplicateFragment, s)
  else
    let s2 := { s with hasElement := true, arr := s.arr ++ [value] }
    if checkOrder s2 1 then (some .outOfOrder, s2)
    else (none, { s2 with order := s2.order ++ [1] })

/-- JS `id(value)`: duplicate check, set flag, push the value prefixed with a hash, check order, push rank 2. -/
def id (s : MySuperBaseElementSelector) (value : String) :
    Option SelectorError × MySuperBaseElementSelector :=
  if s.hasId then (some .duplicateFragment, s)
  else
    let s2 := { s with hasId := true, arr := s.arr ++ ["#" ++ value] }
    if checkOrder s2 2 then (some .outOfOrder, s2)
    else (none, { s2 with order := s2.order ++ [2] })

/-- JS `class(value)` (function name `class1` in the source): push the value prefixed with a dot, check order, push rank 3. -/
def class1 (s : MySuperBaseElementSelector) (value : String) :
    Option SelectorError × MySuperBaseElementSelector :=
  let s2 := { s with arr := s.arr ++ ["." ++ value] }
  if checkOrder s2 3 then (some .outOfOrder, s2)
  else (none, { s2 with order := s2.order ++ [3] })

/-- JS `attr(value)`: push the value wrapped in square brackets, check order, push rank 4. -/
def attr (s : MySuperBaseElementSelector) (value : String) :
    Option SelectorError × MySuperBaseElementSelector :=
  let s2 := { s with arr := s.arr ++ ["[" ++ value ++ "]"] }
  if checkOrder s2 4 then (some .outOfOrder, s2)
  else (none, { s2 with order := s2.order ++ [4] })

/-- JS `pseudoClass(value)`: push the value prefixed with a colon, check order, push rank 5. -/
def pseudoClass (s : MySuperBaseElementSelector) (value : String) :
    Option SelectorError × MySuperBaseElementSelector :=
  let s2 := { s with arr := s.arr ++ [":" ++ value] }
  if checkOrder s2 5 then (some .outOfOrder, s2)
  else (none, { s2 with order := s2.order ++ [5] })

/-- JS `pseudoElement(value)`: duplicate check, set flag, push the value
prefixed with a double colon, check order, push rank 6. -/
def pseudoElement (s : MySuperBaseElementSelector) (value : String) :
    Option SelectorError × MySuperBaseElementSelector :=
  if s.hasPseudoElement then (some .duplicateFragment, s)
  else
    let s2 := { s with hasPseudoElement := true, arr := s.arr ++ ["::" ++ value] }
    if checkOrder s2 6 then (some .outOfOrder, s2)
    else (none, { s2 with order := s2.order ++ [6] })

/-- JS `combine(selector1, combinator, selector2)`: replaces `this.arr` by the three
chunks; `order` and the flags are untouched. -/
def combine (s : MySuperBaseElementSelector) (selector1 : MySuperBaseElementSelector)
    (combinator : String) (selector2 : MySuperBaseElementSelector) :
    MySuperBaseElementSelector :=
  { s with arr := [selector1.stringify, " " ++ combinator ++ " ", selector2.stringify] }

end MySuperBaseElementSelector

/-- The six fragment-append operations, with their argument. -/
inductive AppendOp where
  | element (v : String)
  | id (v : String)
  | class1 (v : String)
  | attr (v : String)
  | pseudoClass (v : String)
  | pseudoElement (v : String)
deriving Repr, DecidableEq

/-- Rank recorded by each append operation (`element=1 … pseudoElement=6`). -/
def AppendOp.rank : AppendOp → Nat
  | .element _ => 1
  | .id _ => 2
  | .class1 _ => 3
  | .attr _ => 4
  | .pseudoClass _ => 5
  | .pseudoElement _ => 6

/-- Dispatch an append operation to the corresponding method. -/
def applyOp (s : MySuperBaseElementSelector) : AppendOp →
    Option SelectorError × MySuperBaseElementSelector
  | .element v => s.element v
  | .id v => s.id v
  | .class1 v => s.class1 v
  | .attr v => s.attr v
  | .pseudoClass v => s.pseudoClass v
  | .pseudoElement v => s.pseudoElement v

/-- Run a chain of append calls; a throw aborts the chain (the exception
propagates), returning the state at the moment of the throw. -/
def runAll (s : MySuperBaseElementSelector) :
    List AppendOp → Option SelectorError × MySuperBaseElementSelector
  | [] => (none, s)
  | op :: rest =>
    match applyOp s op with
    | (none, s1) => runAll s1 rest
    | (some e, s1) => (some e, s1)

/-- States reachable from a fresh instance by any sequence of append calls
(whether they throw or not — the post-throw state is kept) and `combine`
calls with reachable arguments. -/
inductive Reachable : MySuperBaseElementSelector → Prop where
  | init : Reachable newSelector
  | step (s : MySuperBaseElementSelector) (op : AppendOp) :
      Reachable s → Reachable (applyOp s op).2
  | combineStep (s a b : MySuperBaseElementSelector) (c : String) :
      Reachable s → Reachable a → Reachable b →
      Reachable (s.combine a c b)

namespace cssSelectorBuilder

/-- Facade `element(value)`: fresh instance, `instance.element(value)`,
then `instance.hasElement = true` (the call throwing would skip the
assignment and propagate). -/
def element (value : String) : Option SelectorError × MySuperBaseElementSelector :=
  match MySuperBaseElementSelector.element newSelector value with
  | (some e, s) => (some e, s)
  | (none, s) => (none, { s with hasElement := true })

/-- Facade `id(value)`. -/
def id (value : String) : Option SelectorError × MySuperBaseElementSelector :=
  match MySuperBaseElementSelector.id newSelector value with
  | (some e, s) => (some e, s)
  | (none, s) => (none, { s with hasId := true })

/-- Facade `class(value)`. -/
def class1 (value : String) : Option SelectorError × MySuperBaseElementSelector :=
  MySuperBaseElementSelector.class1 newSelector value

/-- Facade `attr(value)`. -/
def attr (value : String) : Option SelectorError × MySuperBaseElementSelector :=
  MySuperBaseElementSelector.attr newSelector value

/-- Facade `pseudoClass(value)`. -/
def pseudoClass (value : String) : Option SelectorError × MySuperBaseElementSelector :=
  MySuperBaseElementSelector.pseudoClass newSelector value

/-- Facade `pseudoElement(value)`. -/
def pseudoElement (value : String) : Option SelectorError × MySuperBaseElementSelector :=
  match MySuperBaseElementSelector.pseudoElement newSelector value with
  | (some e, s) => (some e, s)
  | (none, s) => (none, { s with hasPseudoElement := true })

/-- Facade `combine(selector1, combinator, selector2)`: fresh instance,
`instance.combine(...)` (never throws). -/
def combine (selector1 : MySuperBaseElementSelector) (combinator : String)
    (selector2 : MySuperBaseElementSelector) : MySuperBaseElementSelector :=
  newSelector.combine selector1 combinator selector2

end cssSelectorBuilder

/-- Common shape of a successful-or-out-of-order append step: push `text`,
then either fail the order check (rank not recorded) or record rank `r`. -/
def stepFrag (s : MySuperBaseElementSelector) (text : String) (r : Nat) :
    Option SelectorError × MySuperBaseElementSelector :=
  if s.order.getLastD 0 > r then
    (some .outOfOrder, { s with arr := s.arr ++ [text] })
  else
    (none, { s with arr := s.arr ++ [text], order := s.order ++ [r] })

/-- The opening-brace character of the canonical mapping text. -/
def obrace : Char := Char.ofNat 123

/-- The closing-brace character of the canonical mapping text. -/
def cbrace : Char := Char.ofNat 125

/-- Modelled from the spec: the generic structured-text encoder used by
`getJSON` (`JSON.stringify`, which lives in the runtime, not in `src/`):
for a plain key-value mapping it produces the canonical brace-delimited
text, each key and value quoted, a colon between a key and its value,
pairs separated by commas.  One pair of the body. -/
def encodePair (kv : String × String) : List Char :=
  ['"'] ++ kv.1.data ++ ['"', ':', '"'] ++ kv.2.data ++ ['"']

/-- Modelled from the spec: comma-separated body of the canonical text. -/
def encodeBody : List (String × String) → List Char
  | [] => []
  | [kv] => encodePair kv
  | kv :: kv2 :: rest => encodePair kv ++ [','] ++ encodeBody (kv2 :: rest)

/-- Modelled from the spec: the whole canonical text of a mapping. -/
def encode (m : List (String × String)) : List Char :=
  obrace :: encodeBody m ++ [cbrace]

/-- Scan up to the closing quote; fails if the text ends first. -/
def takeQuoted : List Char → Option (List Char × List Char)
  | [] => none
  | c :: rest =>
    if c = '"' then some ([], rest)
    else
      match takeQuoted rest with
      | some (s, r) => some (c :: s, r)
      | none => none

/-- Parse one quoted string, returning it and the remaining text. -/
def parseQuoted : List Char → Option (String × List Char)
  | [] => none
  | c :: rest =>
    if c = '"' then
      match takeQuoted rest with
      | some (s, r) => some (⟨s⟩, r)
      | none => none
    else none

/-- Parse one `"key":"value"` pair. -/
def parsePair (l : List Char) : Option ((String × String) × List Char) :=
  match parseQuoted l with
  | none => none
  | some (k, r1) =>
    match r1 with
    | ':' :: r2 =>
      match parseQuoted r2 with
      | none => none
      | some (v, r3) => some ((k, v), r3)
    | _ => none

/-- Modelled from the spec: the matching decoder body — parse the pairs up
to the closing brace (fuelled by the text length). -/
def decodePairs : Nat → List Char → Option (List (String × String))
  | 0, _ => none
  | fuel + 1, l =>
    if l = [cbrace] then some []
    else
      match parsePair l with
      | none => none
      | some (kv, rest) =>
        if rest = [cbrace] then some [kv]
        else
          match rest with
          | ',' :: rest2 =>
            match decodePairs fuel rest2 with
            | some m => some (kv :: m)
            | none => none
          | _ => none

/-- Modelled from the spec: the decoder reconstructing a plain key-value
structure from the canonical text (`JSON.parse`, which lives in the
runtime, not in `src/`). -/
def decode (l : List Char) : Option (List (String × String)) :=
  match l with
  | [] => none
  | c :: rest => if c = obrace then decodePairs (rest.length + 1) rest else none

/-- A plain key-value structure: no quote character inside keys or values. -/
def PlainKV (m : List (String × String)) : Prop :=
  ∀ kv ∈ m, '"' ∉ kv.1.data ∧ '"' ∉ kv.2.data

instance : DecidablePred PlainKV := fun m =>
  List.decidableBAll _ m

theorem joinAll_append (l₁ l₂ : List String) :
    joinAll (l₁ ++ l₂) = joinAll l₁ ++ joinAll l₂ := by
  induction l₁ with
  | nil => simp [joinAll]
  | cons x xs ih => simp [joinAll, ih, String.append_assoc]

example :
    (cssSelectorBuilder.element "a").2.stringify = "a" := by decide

example :
    (runAll newSelector
      [.element "a", .attr "x", .pseudoClass "focus"]).2.stringify
      = "a[x]:focus" := by decide

theorem applyOp_class1_eq (s : MySuperBaseElementSelector) (v : String) :
    applyOp s (.class1 v) = stepFrag s ("." ++ v) 3 := by
  unfold applyOp MySuperBaseElementSelector.class1 stepFrag
    MySuperBaseElementSelector.checkOrder
  simp only [decide_eq_true_eq]

theorem applyOp_attr_eq (s : MySuperBaseElementSelector) (v : String) :
    applyOp s (.attr v) = stepFrag s ("[" ++ v ++ "]") 4 := by
  unfold applyOp MySuperBaseElementSelector.attr stepFrag
    MySuperBaseElementSelector.checkOrder
  simp only [decide_eq_true_eq]

theorem applyOp_pseudoClass_eq (s : MySuperBaseElementSelector) (v : String) :
    applyOp s (.pseudoClass v) = stepFrag s (":" ++ v) 5 := by
  unfold applyOp MySuperBaseElementSelector.pseudoClass stepFrag
    MySuperBaseElementSelector.checkOrder
  simp only [decide_eq_true_eq]

theorem applyOp_element_eq (s : MySuperBaseElementSelector) (v : String)
    (h : s.hasElement = false) :
    applyOp s (.element v) = stepFrag { s with hasElement := true } v 1 := by
  unfold applyOp MySuperBaseElementSelector.element stepFrag
    MySuperBaseElementSelector.checkOrder
  simp only [h, Bool.false_eq_true, if_false, decide_eq_true_eq]

theorem applyOp_id_eq (s : MySuperBaseElementSelector) (v : String)
    (h : s.hasId = false) :
    applyOp s (.id v) = stepFrag { s with hasId := true } ("#" ++ v) 2 := by
  unfold applyOp MySuperBaseElementSelector.id stepFrag
    MySuperBaseElementSelector.checkOrder
  simp only [h, Bool.false_eq_true, if_false, decide_eq_true_eq]

theorem applyOp_pseudoElement_eq (s : MySuperBaseElementSelector) (v : String)
    (h : s.hasPseudoElement = false) :
    applyOp s (.pseudoElement v) =
      stepFrag { s with hasPseudoElement := true } ("::" ++ v) 6 := by
  unfold applyOp MySuperBaseElementSelector.pseudoElement stepFrag
    MySuperBaseElementSelector.checkOrder
  simp only [h, Bool.false_eq_true, if_false, decide_eq_true_eq]

/-- Running a block of same-rank appends (classes, attributes or
pseudo-classes) from a state whose last recorded rank is at most `r`
succeeds and appends the decorated texts and the ranks in order. -/
theorem runAll_repeat (mk : String → AppendOp) (f : String → String) (r : Nat)
    (hop : ∀ s v, applyOp s (mk v) = stepFrag s (f v) r) :
    ∀ (vs : List String) (s : MySuperBaseElementSelector),
      s.order.getLastD 0 ≤ r →
      runAll s (vs.map mk) =
        (none, { s with arr := s.arr ++ vs.map f, order := s.order ++ List.replicate vs.length r }) := by
  intro vs
  induction vs with
  | nil => intro s h; simp [runAll]
  | cons v vs ih =>
    intro s h
    have hnot : ¬ s.order.getLastD 0 > r := Nat.not_lt.mpr h
    simp only [List.map_cons, runAll, hop, stepFrag, if_neg hnot]
    rw [ih { s with arr := s.arr ++ [f v], order := s.order ++ [r] }
      (by simp [List.getLastD_concat])]
    simp [List.replicate_succ, List.append_assoc]

theorem runAll_cons_ok (s s1 : MySuperBaseElementSelector) (op : AppendOp)
    (rest : List AppendOp) (h : applyOp s op = (none, s1)) :
    runAll s (op :: rest) = runAll s1 rest := by
  simp [runAll, h]

theorem runAll_append_ok (s s1 : MySuperBaseElementSelector)
    (l₁ l₂ : List AppendOp) (h : runAll s l₁ = (none, s1)) :
    runAll s (l₁ ++ l₂) = runAll s1 l₂ := by
  induction l₁ generalizing s with
  | nil => simp [runAll] at h; simp [h]
  | cons op rest ih =>
    simp only [List.cons_append, runAll] at h ⊢
    cases hop : applyOp s op with
    | mk e s2 =>
      cases e with
      | none => rw [hop] at h; exact ih s2 h
      | some err => rw [hop] at h; exact absurd h (by simp)

theorem getLastD_append_replicate_le (l : List Nat) (n k m : Nat)
    (h : l.getLastD 0 ≤ m) (hk : k ≤ m) :
    (l ++ List.replicate n k).getLastD 0 ≤ m := by
  cases n with
  | zero => simpa using h
  | succ n =>
    rw [List.replicate_succ', ← List.append_assoc, List.getLastD_concat]
    exact hk

theorem runAll_singleton (s : MySuperBaseElementSelector) (op : AppendOp) :
    runAll s [op] = applyOp s op := by
  cases h : applyOp s op with
  | mk e s1 => cases e <;> simp [runAll, h]

theorem stepFrag_ok (s : MySuperBaseElementSelector) (text : String) (r : Nat)
    (h : s.order.getLastD 0 ≤ r) :
    stepFrag s text r =
      (none, { s with arr := s.arr ++ [text], order := s.order ++ [r] }) := by
  unfold stepFrag
  rw [if_neg (Nat.not_lt.mpr h)]

/-- C1: after `element`, `id`, `class`×n, `attr`×m, `pseudoClass`×k,
`pseudoElement` in that relative order, no call throws and `stringify()`
returns exactly the element text, then a hash before the id, a dot before
each class, square brackets around each attribute, a colon before each
pseudo-class and a double colon before the pseudo-element, concatenated in
append order with nothing else. -/
theorem c1_stringify_concatenation (e i pe : String) (cs as ps : List String) :
    (runAll newSelector (AppendOp.element e :: AppendOp.id i ::
        (cs.map AppendOp.class1 ++ (as.map AppendOp.attr ++
          (ps.map AppendOp.pseudoClass ++ [AppendOp.pseudoElement pe]))))).1 = none ∧
    (runAll newSelector (AppendOp.element e :: AppendOp.id i ::
        (cs.map AppendOp.class1 ++ (as.map AppendOp.attr ++
          (ps.map AppendOp.pseudoClass ++ [AppendOp.pseudoElement pe]))))).2.stringify =
      e ++ "#" ++ i ++ joinAll (cs.map fun c => "." ++ c)
        ++ joinAll (as.map fun a => "[" ++ a ++ "]")
        ++ joinAll (ps.map fun p => ":" ++ p) ++ "::" ++ pe := by
  have step1 : applyOp newSelector (AppendOp.element e) =
      (none, ⟨[e], [1], true, false, false⟩) := rfl
  have step2 : applyOp ⟨[e], [1], true, false, false⟩ (AppendOp.id i) =
      (none, ⟨[e, "#" ++ i], [1, 2], true, true, false⟩) := rfl
  have hcs : runAll (⟨[e, "#" ++ i], [1, 2], true, true, false⟩ :
        MySuperBaseElementSelector) (cs.map AppendOp.class1) =
      (none, ⟨[e, "#" ++ i] ++ cs.map (fun c => "." ++ c),
        [1, 2] ++ List.replicate cs.length 3, true, true, false⟩) :=
    runAll_repeat AppendOp.class1 (fun c => "." ++ c) 3 applyOp_class1_eq cs _
      (by show ([1, 2] : List Nat).getLastD 0 ≤ 3; decide)
  have has : runAll (⟨[e, "#" ++ i] ++ cs.map (fun c => "." ++ c),
        [1, 2] ++ List.replicate cs.length 3, true, true, false⟩ :
        MySuperBaseElementSelector) (as.map AppendOp.attr) =
      (none, ⟨([e, "#" ++ i] ++ cs.map (fun c => "." ++ c))
          ++ as.map (fun a => "[" ++ a ++ "]"),
        ([1, 2] ++ List.replicate cs.length 3) ++ List.replicate as.length 4,
        true, true, false⟩) :=
    runAll_repeat AppendOp.attr (fun a => "[" ++ a ++ "]") 4 applyOp_attr_eq as _
      (getLastD_append_replicate_le [1, 2] cs.length 3 4 (by decide) (by decide))
  have hps : runAll (⟨([e, "#" ++ i] ++ cs.map (fun c => "." ++ c))
          ++ as.map (fun a => "[" ++ a ++ "]"),
        ([1, 2] ++ List.replicate cs.length 3) ++ List.replicate as.length 4,
        true, true, false⟩ : MySuperBaseElementSelector) (ps.map AppendOp.pseudoClass) =
      (none, ⟨(([e, "#" ++ i] ++ cs.map (fun c => "." ++ c))
          ++ as.map (fun a => "[" ++ a ++ "]")) ++ ps.map (fun p => ":" ++ p),
        (([1, 2] ++ List.replicate cs.length 3) ++ List.replicate as.length 4)
          ++ List.replicate ps.length 5, true, true, false⟩) :=
    runAll_repeat AppendOp.pseudoClass (fun p => ":" ++ p) 5 applyOp_pseudoClass_eq ps _
      (getLastD_append_replicate_le ([1, 2] ++ List.replicate cs.length 3)
        as.length 4 5
        (getLastD_append_replicate_le [1, 2] cs.length 3 5 (by decide) (by decide))
        (by decide))
  have hb6 : ((([1, 2] ++ List.replicate cs.length 3) ++ List.replicate as.length 4)
      ++ List.replicate ps.length 5).getLastD 0 ≤ 6 :=
    getLastD_append_replicate_le _ ps.length 5 6
      (getLastD_append_replicate_le _ as.length 4 6
        (getLastD_append_replicate_le [1, 2] cs.length 3 6 (by decide) (by decide))
        (by decide))
      (by decide)
  have hpe : applyOp (⟨(([e, "#" ++ i] ++ cs.map (fun c => "." ++ c))
          ++ as.map (fun a => "[" ++ a ++ "]")) ++ ps.map (fun p => ":" ++ p),
        (([1, 2] ++ List.replicate cs.length 3) ++ List.replicate as.length 4)
          ++ List.replicate ps.length 5, true, true, false⟩ :
        MySuperBaseElementSelector) (AppendOp.pseudoElement pe) =
      (none, ⟨((([e, "#" ++ i] ++ cs.map (fun c => "." ++ c))
          ++ as.map (fun a => "[" ++ a ++ "]")) ++ ps.map (fun p => ":" ++ p))
          ++ ["::" ++ pe],
        ((([1, 2] ++ List.replicate cs.length 3) ++ List.replicate as.length 4)
          ++ List.replicate ps.length 5) ++ [6], true, true, true⟩) := by
    rw [applyOp_pseudoElement_eq _ pe rfl]
    rw [stepFrag_ok _ _ _ hb6]
  have hrun : runAll newSelector (AppendOp.element e :: AppendOp.id i ::
        (cs.map AppendOp.class1 ++ (as.map AppendOp.attr ++
          (ps.map AppendOp.pseudoClass ++ [AppendOp.pseudoElement pe])))) =
      (none, ⟨((([e, "#" ++ i] ++ cs.map (fun c => "." ++ c))
          ++ as.map (fun a => "[" ++ a ++ "]")) ++ ps.map (fun p => ":" ++ p))
          ++ ["::" ++ pe],
        ((([1, 2] ++ List.replicate cs.length 3) ++ List.replicate as.length 4)
          ++ List.replicate ps.length 5) ++ [6], true, true, true⟩) := by
    rw [runAll_cons_ok _ _ _ _ step1, runAll_cons_ok _ _ _ _ step2,
      runAll_append_ok _ _ _ _ hcs, runAll_append_ok _ _ _ _ has,
      runAll_append_ok _ _ _ _ hps, runAll_singleton, hpe]
  refine ⟨by rw [hrun], ?_⟩
  rw [hrun]
  simp [MySuperBaseElementSelector.stringify, joinAll_append, joinAll,
    String.append_assoc]

/-- C2: `combine` replaces the receiver's fragment array by exactly the three
chunks: the stringify of the first selector, the combinator padded with one
space on each side, and the stringify of the second selector; so the result
stringifies to their concatenation. In
particular combining `div#main` and `table#data` with the plus combinator gives
`"div#main + table#data"`. -/
theorem c2_combine_concatenation :
    (∀ (s a b : MySuperBaseElementSelector) (c : String),
      (s.combine a c b).arr = [a.stringify, " " ++ c ++ " ", b.stringify] ∧
      (s.combine a c b).stringify =
        a.stringify ++ " " ++ c ++ " " ++ b.stringify) ∧
    (runAll newSelector [AppendOp.element "div", AppendOp.id "main"]).2.stringify
        = "div#main" ∧
    (runAll newSelector [AppendOp.element "table", AppendOp.id "data"]).2.stringify
        = "table#data" ∧
    (cssSelectorBuilder.combine
        (runAll newSelector [AppendOp.element "div", AppendOp.id "main"]).2 "+"
        (runAll newSelector [AppendOp.element "table", AppendOp.id "data"]).2).stringify
      = "div#main + table#data" := by
  refine ⟨fun s a b c => ⟨rfl, ?_⟩, by decide, by decide, by decide⟩
  simp [MySuperBaseElementSelector.combine, MySuperBaseElementSelector.stringify,
    joinAll, String.append_assoc]

/-- C4: `element`, `id` and `pseudoElement` raise the duplicate error exactly
when the corresponding singleton flag is already set, and calling each twice
starting from the facade raises it on the second call. -/
theorem c4_duplicate_singletons (s : MySuperBaseElementSelector) (v : String) :
    ((s.element v).1 = some SelectorError.duplicateFragment ↔ s.hasElement = true) ∧
    ((s.id v).1 = some SelectorError.duplicateFragment ↔ s.hasId = true) ∧
    ((s.pseudoElement v).1 = some SelectorError.duplicateFragment ↔
      s.hasPseudoElement = true) ∧
    (MySuperBaseElementSelector.element (cssSelectorBuilder.element "a").2 "b").1
      = some SelectorError.duplicateFragment ∧
    (MySuperBaseElementSelector.id (cssSelectorBuilder.id "a").2 "b").1
      = some SelectorError.duplicateFragment ∧
    (MySuperBaseElementSelector.pseudoElement
        (cssSelectorBuilder.pseudoElement "a").2 "b").1
      = some SelectorError.duplicateFragment := by
  refine ⟨?_, ?_, ?_, by decide, by decide, by decide⟩
  · cases he : s.hasElement
    · simp [MySuperBaseElementSelector.element, he]
      split <;> simp
    · simp [MySuperBaseElementSelector.element, he]
  · cases he : s.hasId
    · simp [MySuperBaseElementSelector.id, he]
      split <;> simp
    · simp [MySuperBaseElementSelector.id, he]
  · cases he : s.hasPseudoElement
    · simp [MySuperBaseElementSelector.pseudoElement, he]
      split <;> simp
    · simp [MySuperBaseElementSelector.pseudoElement, he]

/-- C9 (implicit): in `element`, `id` and `pseudoElement` the duplicate check
is the first action, so a duplicate failure returns with the instance
completely unchanged. -/
theorem c9_duplicate_no_mutation (s : MySuperBaseElementSelector) (v : String) :
    (s.hasElement = true →
      s.element v = (some SelectorError.duplicateFragment, s)) ∧
    (s.hasId = true →
      s.id v = (some SelectorError.duplicateFragment, s)) ∧
    (s.hasPseudoElement = true →
      s.pseudoElement v = (some SelectorError.duplicateFragment, s)) := by
  refine ⟨fun h => ?_, fun h => ?_, fun h => ?_⟩ <;>
    simp [MySuperBaseElementSelector.element, MySuperBaseElementSelector.id,
      MySuperBaseElementSelector.pseudoElement, h]

theorem c9_duplicate_no_mutation_witness :
    MySuperBaseElementSelector.element
        (runAll newSelector
          [AppendOp.element "a", AppendOp.id "b", AppendOp.pseudoElement "c"]).2 "z"
      = (some SelectorError.duplicateFragment,
        (runAll newSelector
          [AppendOp.element "a", AppendOp.id "b", AppendOp.pseudoElement "c"]).2) ∧
    MySuperBaseElementSelector.id
        (runAll newSelector
          [AppendOp.element "a", AppendOp.id "b", AppendOp.pseudoElement "c"]).2 "z"
      = (some SelectorError.duplicateFragment,
        (runAll newSelector
          [AppendOp.element "a", AppendOp.id "b", AppendOp.pseudoElement "c"]).2) ∧
    MySuperBaseElementSelector.pseudoElement
        (runAll newSelector
          [AppendOp.element "a", AppendOp.id "b", AppendOp.pseudoElement "c"]).2 "z"
      = (some SelectorError.duplicateFragment,
        (runAll newSelector
          [AppendOp.element "a", AppendOp.id "b", AppendOp.pseudoElement "c"]).2) :=
  ⟨(c9_duplicate_no_mutation _ "z").1 (by decide),
   (c9_duplicate_no_mutation _ "z").2.1 (by decide),
   (c9_duplicate_no_mutation _ "z").2.2 (by decide)⟩

/-- C10 (implicit): `combine` reads its two selector arguments only through
`stringify()` — its result depends on nothing else about them — and, the
model being functional on explicit state, the arguments themselves are
returned to the caller untouched. -/
theorem c10_combine_reads_only_stringify
    (s a a' b b' : MySuperBaseElementSelector) (c : String)
    (h1 : a.stringify = a'.stringify) (h2 : b.stringify = b'.stringify) :
    s.combine a c b = s.combine a' c b' := by
  simp [MySuperBaseElementSelector.combine, h1, h2]

theorem c10_combine_reads_only_stringify_witness :
    (⟨["x"], [1], true, false, false⟩ :
        MySuperBaseElementSelector).stringify
      = (⟨["x"], [], false, false, false⟩ :
        MySuperBaseElementSelector).stringify ∧
    (⟨["#y"], [2], false, true, false⟩ :
        MySuperBaseElementSelector).stringify
      = (⟨["#y"], [], false, false, false⟩ :
        MySuperBaseElementSelector).stringify ∧
    newSelector.combine (⟨["x"], [1], true, false, false⟩ :
        MySuperBaseElementSelector) "+"
        (⟨["#y"], [2], false, true, false⟩ : MySuperBaseElementSelector)
      = newSelector.combine (⟨["x"], [], false, false, false⟩ :
        MySuperBaseElementSelector) "+"
        (⟨["#y"], [], false, false, false⟩ : MySuperBaseElementSelector) :=
  ⟨by decide, by decide,
   c10_combine_reads_only_stringify newSelector _ _ _ _ "+"
     (by decide) (by decide)⟩

/-- C7: every facade function builds a fresh instance, applies the matching
operation to it, and returns it: its result coincides with that operation
applied to a newly constructed builder (the redundant facade flag
assignments are absorbed, the flag being already set by the method). -/
theorem c7_facade_delegates (v : String)
    (a b : MySuperBaseElementSelector) (c : String) :
    cssSelectorBuilder.element v = applyOp newSelector (AppendOp.element v) ∧
    cssSelectorBuilder.id v = applyOp newSelector (AppendOp.id v) ∧
    cssSelectorBuilder.class1 v = applyOp newSelector (AppendOp.class1 v) ∧
    cssSelectorBuilder.attr v = applyOp newSelector (AppendOp.attr v) ∧
    cssSelectorBuilder.pseudoClass v = applyOp newSelector (AppendOp.pseudoClass v) ∧
    cssSelectorBuilder.pseudoElement v =
      applyOp newSelector (AppendOp.pseudoElement v) ∧
    cssSelectorBuilder.combine a c b = newSelector.combine a c b :=
  ⟨rfl, rfl, rfl, rfl, rfl, rfl, rfl⟩

theorem stepFrag_fst_iff (s : MySuperBaseElementSelector) (text : String) (r : Nat) :
    (stepFrag s text r).1 = some SelectorError.outOfOrder ↔
      s.order.getLastD 0 > r := by
  unfold stepFrag
  split <;> simp_all

/-- C3 counterexample: on the builder obtained by `element('a')` then
`class('b')` the last recorded rank is `3 > 1`, yet a further `element('c')`
does not raise the out-of-order error (the duplicate check fires first). -/
theorem c3_counterexample_duplicate_shadows_order :
    (runAll newSelector
        [AppendOp.element "a", AppendOp.class1 "b"]).2.order.getLastD 0
      > (AppendOp.element "c").rank ∧
    (applyOp (runAll newSelector [AppendOp.element "a", AppendOp.class1 "b"]).2
        (AppendOp.element "c")).1 ≠ some SelectorError.outOfOrder := by
  decide

/-- C3 amended: provided the append does not fail the duplicate check, it
raises the out-of-order error exactly when the most recently recorded rank
(`0` when none) is strictly greater than the rank being appended; in
particular a rank greater than or equal to the previous one never raises it. -/
theorem c3_out_of_order_iff (s : MySuperBaseElementSelector) (op : AppendOp)
    (h : (applyOp s op).1 ≠ some SelectorError.duplicateFragment) :
    (applyOp s op).1 = some SelectorError.outOfOrder ↔
      s.order.getLastD 0 > op.rank := by
  cases op with
  | element v =>
    cases he : s.hasElement with
    | true =>
      exact absurd (by simp [applyOp, MySuperBaseElementSelector.element, he]) h
    | false =>
      rw [applyOp_element_eq s v he]
      simpa [AppendOp.rank] using
        stepFrag_fst_iff { s with hasElement := true } v 1
  | id v =>
    cases he : s.hasId with
    | true =>
      exact absurd (by simp [applyOp, MySuperBaseElementSelector.id, he]) h
    | false =>
      rw [applyOp_id_eq s v he]
      simpa [AppendOp.rank] using
        stepFrag_fst_iff { s with hasId := true } ("#" ++ v) 2
  | class1 v =>
    rw [applyOp_class1_eq]
    simpa [AppendOp.rank] using stepFrag_fst_iff s ("." ++ v) 3
  | attr v =>
    rw [applyOp_attr_eq]
    simpa [AppendOp.rank] using stepFrag_fst_iff s ("[" ++ v ++ "]") 4
  | pseudoClass v =>
    rw [applyOp_pseudoClass_eq]
    simpa [AppendOp.rank] using stepFrag_fst_iff s (":" ++ v) 5
  | pseudoElement v =>
    cases he : s.hasPseudoElement with
    | true =>
      exact absurd
        (by simp [applyOp, MySuperBaseElementSelector.pseudoElement, he]) h
    | false =>
      rw [applyOp_pseudoElement_eq s v he]
      simpa [AppendOp.rank] using
        stepFrag_fst_iff { s with hasPseudoElement := true } ("::" ++ v) 6

theorem c3_out_of_order_iff_witness :
    ((applyOp (runAll newSelector [AppendOp.class1 "a", AppendOp.attr "b"]).2
        (AppendOp.class1 "c")).1 ≠ some SelectorError.duplicateFragment) ∧
    ((applyOp (runAll newSelector [AppendOp.class1 "a", AppendOp.attr "b"]).2
        (AppendOp.class1 "c")).1 = some SelectorError.outOfOrder ↔
      (runAll newSelector
        [AppendOp.class1 "a", AppendOp.attr "b"]).2.order.getLastD 0
        > (AppendOp.class1 "c").rank) :=
  ⟨by decide, c3_out_of_order_iff _ _ (by decide)⟩

theorem stepFrag_err_order (s : MySuperBaseElementSelector) (text : String)
    (r : Nat) (h : (stepFrag s text r).1.isSome) :
    (stepFrag s text r).2.order = s.order ∧
    (stepFrag s text r).1 = some SelectorError.outOfOrder := by
  unfold stepFrag at h ⊢
  by_cases hc : s.order.getLastD 0 > r
  · rw [if_pos hc]
    exact ⟨rfl, rfl⟩
  · rw [if_neg hc] at h
    simp at h

/-- C5 counterexample: `attr('x')` then `class('y')` raises the out-of-order
error, but the failed call has already pushed the decorated class text onto the fragment
array, so the state is not the pre-call state. -/
theorem c5_counterexample_partial_mutation :
    (applyOp (runAll newSelector [AppendOp.attr "x"]).2 (AppendOp.class1 "y")).1
      = some SelectorError.outOfOrder ∧
    (applyOp (runAll newSelector [AppendOp.attr "x"]).2 (AppendOp.class1 "y")).2.arr
      ≠ (runAll newSelector [AppendOp.attr "x"]).2.arr := by
  decide

/-- C5 amended: a failed append never records a rank, and a duplicate
failure leaves the whole state unchanged; but an out-of-order failure
happens only after the fragment text has been pushed (and, for the
singleton kinds, the seen-flag set), so the fragment array may differ. -/
theorem c5_failed_append_state (s : MySuperBaseElementSelector) (op : AppendOp)
    (h : (applyOp s op).1.isSome) :
    (applyOp s op).2.order = s.order ∧
    ((applyOp s op).1 = some SelectorError.duplicateFragment →
      (applyOp s op).2 = s) := by
  cases op with
  | element v =>
    cases he : s.hasElement with
    | true =>
      have hv : applyOp s (AppendOp.element v) =
          (some SelectorError.duplicateFragment, s) := by
        simp [applyOp, MySuperBaseElementSelector.element, he]
      rw [hv]
      exact ⟨rfl, fun _ => rfl⟩
    | false =>
      rw [applyOp_element_eq s v he] at h ⊢
      have hh := stepFrag_err_order _ v 1 h
      refine ⟨hh.1, fun hd => ?_⟩
      rw [hh.2] at hd
      simp at hd
  | id v =>
    cases he : s.hasId with
    | true =>
      have hv : applyOp s (AppendOp.id v) =
          (some SelectorError.duplicateFragment, s) := by
        simp [applyOp, MySuperBaseElementSelector.id, he]
      rw [hv]
      exact ⟨rfl, fun _ => rfl⟩
    | false =>
      rw [applyOp_id_eq s v he] at h ⊢
      have hh := stepFrag_err_order _ ("#" ++ v) 2 h
      refine ⟨hh.1, fun hd => ?_⟩
      rw [hh.2] at hd
      simp at hd
  | class1 v =>
    rw [applyOp_class1_eq] at h ⊢
    have hh := stepFrag_err_order _ ("." ++ v) 3 h
    refine ⟨hh.1, fun hd => ?_⟩
    rw [hh.2] at hd
    simp at hd
  | attr v =>
    rw [applyOp_attr_eq] at h ⊢
    have hh := stepFrag_err_order _ ("[" ++ v ++ "]") 4 h
    refine ⟨hh.1, fun hd => ?_⟩
    rw [hh.2] at hd
    simp at hd
  | pseudoClass v =>
    rw [applyOp_pseudoClass_eq] at h ⊢
    have hh := stepFrag_err_order _ (":" ++ v) 5 h
    refine ⟨hh.1, fun hd => ?_⟩
    rw [hh.2] at hd
    simp at hd
  | pseudoElement v =>
    cases he : s.hasPseudoElement with
    | true =>
      have hv : applyOp s (AppendOp.pseudoElement v) =
          (some SelectorError.duplicateFragment, s) := by
        simp [applyOp, MySuperBaseElementSelector.pseudoElement, he]
      rw [hv]
      exact ⟨rfl, fun _ => rfl⟩
    | false =>
      rw [applyOp_pseudoElement_eq s v he] at h ⊢
      have hh := stepFrag_err_order _ ("::" ++ v) 6 h
      refine ⟨hh.1, fun hd => ?_⟩
      rw [hh.2] at hd
      simp at hd

theorem c5_failed_append_state_witness :
    ((applyOp (runAll newSelector [AppendOp.attr "w"]).2
        (AppendOp.class1 "z")).1.isSome = true) ∧
    ((applyOp (runAll newSelector [AppendOp.attr "w"]).2
        (AppendOp.class1 "z")).2.order
      = (runAll newSelector [AppendOp.attr "w"]).2.order ∧
    ((applyOp (runAll newSelector [AppendOp.attr "w"]).2
        (AppendOp.class1 "z")).1 = some SelectorError.duplicateFragment →
      (applyOp (runAll newSelector [AppendOp.attr "w"]).2
        (AppendOp.class1 "z")).2
        = (runAll newSelector [AppendOp.attr "w"]).2)) :=
  ⟨by decide, c5_failed_append_state _ _ (by decide)⟩

theorem chain_append_last (l : List Nat) (r : Nat)
    (h : List.Chain' (· ≤ ·) l) (hle : l.getLastD 0 ≤ r) :
    List.Chain' (· ≤ ·) (l ++ [r]) := by
  rw [List.chain'_append]
  refine ⟨h, List.chain'_singleton _, ?_⟩
  intro x hx y hy
  simp only [List.head?_cons, Option.mem_def, Option.some.injEq] at hy
  subst hy
  have hx' : l.getLastD 0 = x := by
    rw [List.getLastD_eq_getLast?, hx]
    rfl
  rw [← hx']
  exact hle

theorem stepFrag_chain (s : MySuperBaseElementSelector) (text : String) (r : Nat)
    (h : List.Chain' (· ≤ ·) s.order) :
    List.Chain' (· ≤ ·) ((stepFrag s text r).2.order) := by
  unfold stepFrag
  by_cases hc : s.order.getLastD 0 > r
  · rw [if_pos hc]
    exact h
  · rw [if_neg hc]
    exact chain_append_last _ _ h (Nat.not_lt.mp hc)

theorem applyOp_chain (s : MySuperBaseElementSelector) (op : AppendOp)
    (h : List.Chain' (· ≤ ·) s.order) :
    List.Chain' (· ≤ ·) ((applyOp s op).2.order) := by
  cases op with
  | element v =>
    cases he : s.hasElement with
    | true =>
      have hv : applyOp s (AppendOp.element v) =
          (some SelectorError.duplicateFragment, s) := by
        simp [applyOp, MySuperBaseElementSelector.element, he]
      rw [hv]
      exact h
    | false =>
      rw [applyOp_element_eq s v he]
      exact stepFrag_chain _ v 1 h
  | id v =>
    cases he : s.hasId with
    | true =>
      have hv : applyOp s (AppendOp.id v) =
          (some SelectorError.duplicateFragment, s) := by
        simp [applyOp, MySuperBaseElementSelector.id, he]
      rw [hv]
      exact h
    | false =>
      rw [applyOp_id_eq s v he]
      exact stepFrag_chain _ ("#" ++ v) 2 h
  | class1 v =>
    rw [applyOp_class1_eq]
    exact stepFrag_chain _ ("." ++ v) 3 h
  | attr v =>
    rw [applyOp_attr_eq]
    exact stepFrag_chain _ ("[" ++ v ++ "]") 4 h
  | pseudoClass v =>
    rw [applyOp_pseudoClass_eq]
    exact stepFrag_chain _ (":" ++ v) 5 h
  | pseudoElement v =>
    cases he : s.hasPseudoElement with
    | true =>
      have hv : applyOp s (AppendOp.pseudoElement v) =
          (some SelectorError.duplicateFragment, s) := by
        simp [applyOp, MySuperBaseElementSelector.pseudoElement, he]
      rw [hv]
      exact h
    | false =>
      rw [applyOp_pseudoElement_eq s v he]
      exact stepFrag_chain _ ("::" ++ v) 6 h

/-- C6: on every builder reachable by any sequence of operations (including
failed appends, whose post-throw state is kept, and `combine`), the recorded
rank sequence is non-decreasing. -/
theorem c6_rank_sequence_non_decreasing (s : MySuperBaseElementSelector)
    (h : Reachable s) : List.Chain' (· ≤ ·) s.order := by
  induction h with
  | init => simp [newSelector]
  | step s op _ ih => exact applyOp_chain s op ih
  | combineStep s a b c _ _ _ ihs iha ihb =>
    simpa [MySuperBaseElementSelector.combine] using ihs

theorem c6_rank_sequence_non_decreasing_witness :
    Reachable (applyOp (applyOp newSelector (AppendOp.class1 "a")).2
      (AppendOp.attr "b")).2 ∧
    List.Chain' (· ≤ ·)
      (applyOp (applyOp newSelector (AppendOp.class1 "a")).2
        (AppendOp.attr "b")).2.order :=
  ⟨Reachable.step _ (AppendOp.attr "b")
      (Reachable.step _ (AppendOp.class1 "a") Reachable.init),
   c6_rank_sequence_non_decreasing _
    (Reachable.step _ (AppendOp.attr "b")
      (Reachable.step _ (AppendOp.class1 "a") Reachable.init))⟩

theorem takeQuoted_append (s r : List Char) (h : '"' ∉ s) :
    takeQuoted (s ++ '"' :: r) = some (s, r) := by
  induction s with
  | nil => simp [takeQuoted]
  | cons c cs ih =>
    have hc : ¬ c = '"' := fun hh => h (by simp [hh])
    have hcs : '"' ∉ cs := fun hm => h (List.mem_cons_of_mem _ hm)
    simp only [List.cons_append, takeQuoted, if_neg hc, List.append_eq, ih hcs]

theorem parseQuoted_encode (k : String) (r : List Char) (h : '"' ∉ k.data) :
    parseQuoted ('"' :: (k.data ++ '"' :: r)) = some (k, r) := by
  simp only [parseQuoted, if_pos rfl, takeQuoted_append k.data r h]
  simp

theorem parsePair_encode (k v : String) (r : List Char)
    (hk : '"' ∉ k.data) (hv : '"' ∉ v.data) :
    parsePair (encodePair (k, v) ++ r) = some ((k, v), r) := by
  have harr : encodePair (k, v) ++ r =
      '"' :: (k.data ++ '"' :: (':' :: ('"' :: (v.data ++ '"' :: r)))) := by
    simp [encodePair]
  rw [harr]
  simp only [parsePair, parseQuoted_encode k _ hk, parseQuoted_encode v r hv]

theorem cons_ne_brace (x : Char) (t : List Char) (hx : x ≠ cbrace) :
    x :: t ≠ [cbrace] := by
  intro hEq
  injection hEq with h1 _
  exact hx h1

theorem encodePair_length (kv : String × String) :
    (encodePair kv).length = kv.1.data.length + kv.2.data.length + 5 := by
  simp [encodePair]
  omega

theorem length_le_encodeBody (m : List (String × String)) :
    m.length ≤ (encodeBody m).length := by
  induction m with
  | nil => simp [encodeBody]
  | cons kv rest ih =>
    cases rest with
    | nil =>
      have h1 := encodePair_length kv
      simp only [encodeBody, List.length_cons, List.length_nil]
      omega
    | cons kv2 rest2 =>
      simp only [encodeBody, List.length_append, List.length_cons] at ih ⊢
      have h1 := encodePair_length kv
      omega

theorem decodePairs_encode (m : List (String × String)) :
    ∀ fuel : Nat, m.length < fuel → PlainKV m →
      decodePairs fuel (encodeBody m ++ [cbrace]) = some m := by
  induction m with
  | nil =>
    intro fuel hf _
    cases fuel with
    | zero => omega
    | succ n => simp [encodeBody, decodePairs]
  | cons kv rest ih =>
    intro fuel hf hp
    cases fuel with
    | zero => omega
    | succ n =>
      obtain ⟨k, v⟩ := kv
      have hk : '"' ∉ k.data := (hp (k, v) (by simp)).1
      have hv : '"' ∉ v.data := (hp (k, v) (by simp)).2
      cases rest with
      | nil =>
        have hshape : encodeBody [(k, v)] ++ [cbrace] =
            encodePair (k, v) ++ [cbrace] := rfl
        have hcons : encodePair (k, v) ++ [cbrace] =
            '"' :: (k.data ++ ['"', ':', '"'] ++ v.data ++ ['"'] ++ [cbrace]) := by
          simp [encodePair]
        have hne : encodeBody [(k, v)] ++ [cbrace] ≠ [cbrace] := by
          rw [hshape, hcons]
          exact cons_ne_brace _ _ (by decide)
        simp only [decodePairs, if_neg hne]
        rw [hshape, parsePair_encode k v [cbrace] hk hv]
        simp
      | cons kv2 rest2 =>
        have hshape : encodeBody ((k, v) :: kv2 :: rest2) ++ [cbrace] =
            encodePair (k, v) ++
              (',' :: (encodeBody (kv2 :: rest2) ++ [cbrace])) := by
          simp [encodeBody]
        have hcons : encodePair (k, v) ++
            (',' :: (encodeBody (kv2 :: rest2) ++ [cbrace])) =
            '"' :: (k.data ++ ['"', ':', '"'] ++ v.data ++ ['"'] ++
              (',' :: (encodeBody (kv2 :: rest2) ++ [cbrace]))) := by
          simp [encodePair]
        have hne : encodeBody ((k, v) :: kv2 :: rest2) ++ [cbrace] ≠ [cbrace] := by
          rw [hshape, hcons]
          exact cons_ne_brace _ _ (by decide)
        simp only [decodePairs, if_neg hne]
        rw [hshape, parsePair_encode k v _ hk hv]
        have hne2 : (',' :: (encodeBody (kv2 :: rest2) ++ [cbrace])) ≠ [cbrace] :=
          cons_ne_brace _ _ (by decide)
        simp only [if_neg hne2]
        have hrec : decodePairs n (encodeBody (kv2 :: rest2) ++ [cbrace]) =
            some (kv2 :: rest2) := by
          apply ih n ?_ ?_
          · simp only [List.length_cons] at hf ⊢
            omega
          · intro x hx
            exact hp x (List.mem_cons_of_mem _ hx)
        simp [hrec]

/-- C8: for a plain key-value structure, decoding the canonical text the
encoder produced recovers exactly the same key-value pairs, so re-encoding
the decoded structure reproduces the original text:
`encode(decode(text)) = text` for every `text` produced by the encoder. -/
theorem c8_encode_decode_roundtrip (m : List (String × String))
    (hp : PlainKV m) :
    decode (encode m) = some m ∧
    Option.map encode (decode (encode m)) = some (encode m) := by
  have hfuel : m.length < (encodeBody m ++ [cbrace]).length + 1 := by
    have hb := length_le_encodeBody m
    simp only [List.length_append, List.length_cons, List.length_nil]
    omega
  have hdec : decode (encode m) = some m := by
    show decode (obrace :: (encodeBody m ++ [cbrace])) = some m
    simp only [decode, if_pos rfl]
    exact decodePairs_encode m _ hfuel hp
  exact ⟨hdec, by rw [hdec]; rfl⟩

theorem c8_encode_decode_roundtrip_witness :
    PlainKV [("width", "10"), ("height", "20")] ∧
    decode (encode [("width", "10"), ("height", "20")])
      = some [("width", "10"), ("height", "20")] ∧
    Option.map encode (decode (encode [("width", "10"), ("height", "20")]))
      = some (encode [("width", "10"), ("height", "20")]) :=
  ⟨by decide, (c8_encode_decode_roundtrip _ (by decide)).1,
   (c8_encode_decode_roundtrip _ (by decide)).2⟩
